import Mathlib

/-!
Verification of the PCI enumeration and descriptor-decoding core of rxfetch.

The Rust sources are shallowly embedded: byte strings become `List Nat`
(each entry a byte value), fallible operations return an explicit result
type, and filesystem access is passed in as an explicit environment.
Machine-integer arithmetic is modelled on `Nat` with `% 2^w` at the points
where the Rust code can wrap.
-/

namespace Rxfetch

/-- `PciBackendError` from `src/pci/mod.rs`. `IOError(std::io::Error)` is
collapsed to a bare tag: no code path inspects the wrapped error. -/
inductive PciBackendError where
  | notAvailable
  | ioError
  | invalidDevice
deriving DecidableEq, Repr

/-- Rust `Result<α, ε>`. -/
inductive RResult (ε α : Type) where
  | ok (v : α)
  | err (e : ε)
deriving DecidableEq, Repr

/-- `Result::map`. -/
def RResult.mapv {ε α β : Type} (f : α → β) : RResult ε α → RResult ε β
  | .ok v => .ok (f v)
  | .err e => .err e

/-- Abbreviation for results carrying a `PciBackendError`. -/
abbrev PciRes (α : Type) := RResult PciBackendError α

/- ------------------------------------------------------------------ -/
/- src/parse.rs                                                        -/
/- ------------------------------------------------------------------ -/

/-- The match arms of the const LUT builder in `unhex` (`src/parse.rs`):
`b'0'..=b'9' => b - b'0'`, `b'a'..=b'f' => b - b'a' + 10`, `_ => 0`. -/
def unhexEntry (b : Nat) : Nat :=
  if 48 ≤ b ∧ b ≤ 57 then b - 48
  else if 97 ≤ b ∧ b ≤ 102 then b - 97 + 10
  else 0

/-- The precomputed 256-entry lookup table `LUT` in `unhex`. -/
def unhexLUT : List Nat := (List.range 256).map unhexEntry

/-- `unhex(b: u8) -> u8` (`src/parse.rs`): `LUT[b as usize]`. The `% 256`
models the `u8` argument domain. -/
def unhex (b : Nat) : Nat := unhexLUT.getD (b % 256) 0

/-- The two `.context(..)` messages attached inside
`FixedLengthHex::parse_next` (`src/parse.rs`): `take(n).complete_err()`
carries "Not enough bytes in hex field" and the inner `hex_uint` carries
"Invalid hex digits in hex field". -/
inductive HexFieldError where
  | notEnoughBytes
  | invalidHexDigits
deriving DecidableEq, Repr

/-- The character set accepted by winnow's `ascii::hex_uint`:
`0123456789abcdefABCDEF`. -/
def isWinnowHexDigit (b : Nat) : Bool :=
  (48 ≤ b && b ≤ 57) || (97 ≤ b && b ≤ 102) || (65 ≤ b && b ≤ 70)

/-- `char::to_digit(16)` on an ASCII hex character (`unwrap_or(0)` for the
impossible non-hex case, as in winnow's fold). -/
def hexDigitVal (b : Nat) : Nat :=
  if 48 ≤ b ∧ b ≤ 57 then b - 48
  else if 97 ≤ b ∧ b ≤ 102 then b - 87
  else if 65 ≤ b ∧ b ≤ 70 then b - 55
  else 0

/-- winnow `offset_for(not hex).unwrap_or(eof_offset)`: the length of the
longest hex-digit prefix. -/
def hexPrefixLen : List Nat → Nat
  | [] => 0
  | c :: rest => if isWinnowHexDigit c then hexPrefixLen rest + 1 else 0

/-- winnow `ascii::hex_uint` over the byte stream `input` producing an
unsigned integer of `maxNibbles` hex digits capacity (`size_of::<Output>()
* 2`): overflow (more leading hex digits than fit) and an empty digit
prefix are errors; otherwise the digit prefix is folded most-significant
first. The fold cannot wrap because at most `maxNibbles` digits are
consumed. -/
def hexUint (maxNibbles : Nat) (input : List Nat) : Option Nat :=
  let invalidOffset := hexPrefixLen input
  if maxNibbles ≤ input.length ∧ maxNibbles < invalidOffset then Option.none
  else if invalidOffset = 0 then Option.none
  else some ((input.take invalidOffset).foldl (fun acc c => acc * 16 + hexDigitVal c) 0)

/-- `FixedLengthHex(n)` (`src/parse.rs`): `take(n).complete_err()` (error
`notEnoughBytes` when fewer than `n` bytes remain) `.and_then(hex_uint)`
(error `invalidHexDigits` when the taken slice fails `hex_uint`). On
success it returns the decoded value together with the input after the
`n` consumed bytes. `maxNibbles` is determined by the Rust output type
(`u8` ⇒ 2, `u16` ⇒ 4). -/
def FixedLengthHex (maxNibbles n : Nat) (input : List Nat) :
    RResult HexFieldError (Nat × List Nat) :=
  if input.length < n then .err .notEnoughBytes
  else match hexUint maxNibbles (input.take n) with
    | Option.none => .err .invalidHexDigits
    | some v => .ok (v, input.drop n)

/- ------------------------------------------------------------------ -/
/- PCI device address (src/pci/mod.rs)                                 -/
/- ------------------------------------------------------------------ -/

/-- The address fields of `PciDevice` (`src/pci/mod.rs`): `domain: u16`,
`bus: u8`, `device: u8`, `function: u8`. -/
structure PciAddr where
  domain : Nat
  bus : Nat
  device : Nat
  function : Nat
deriving DecidableEq, Repr

/-- `PciDevice<BackendProvider>` (`src/pci/mod.rs`): address plus provider
state. -/
structure PciDevice (P : Type) where
  domain : Nat
  bus : Nat
  device : Nat
  function : Nat
  provider : P
deriving DecidableEq, Repr

/-- One-character literal parser (the `':'` / `'.'` separators inside the
`winnow::seq!` invocations). -/
def expectChar (c : Nat) (input : List Nat) : Option (List Nat) :=
  match input with
  | b :: rest => if b = c then some rest else Option.none
  | [] => Option.none

/-- `parse_device` (`src/pci/linux_sysfs.rs`): `DDDD:BB:DD.F` — domain is
a `u16` field of 4 hex digits, bus and device `u8` fields of 2 digits,
function a `u8` field of 1 digit; `.parse(..)` demands the whole input be
consumed. Both error kinds collapse to `Option.none`: every caller only
distinguishes success from failure. -/
def parse_device (input : List Nat) : Option PciAddr := do
  let (domain, input) ← match FixedLengthHex 4 4 input with
    | .ok v => some v | .err _ => Option.none
  let input ← expectChar 58 input
  let (bus, input) ← match FixedLengthHex 2 2 input with
    | .ok v => some v | .err _ => Option.none
  let input ← expectChar 58 input
  let (device, input) ← match FixedLengthHex 2 2 input with
    | .ok v => some v | .err _ => Option.none
  let input ← expectChar 46 input
  let (function, input) ← match FixedLengthHex 2 1 input with
    | .ok v => some v | .err _ => Option.none
  if input = [] then some { domain, bus, device, function } else Option.none

/-- `parse_dev_file` (`src/pci/linux_procfs.rs`): `DD.F` device filename;
domain and bus default to 0 (`..PciDevice::new(0,0,0,0)`). -/
def parse_dev_file (input : List Nat) : Option PciAddr := do
  let (device, input) ← match FixedLengthHex 2 2 input with
    | .ok v => some v | .err _ => Option.none
  let input ← expectChar 46 input
  let (function, input) ← match FixedLengthHex 2 1 input with
    | .ok v => some v | .err _ => Option.none
  if input = [] then some { domain := 0, bus := 0, device, function } else Option.none

/-- The procfs bus-directory name parse (`src/pci/linux_procfs.rs`):
`FixedLengthHex(2).parse(bus_dir)` at type `u8`, full input consumed. -/
def parse_bus (input : List Nat) : Option Nat := do
  let (b, rest) ← match FixedLengthHex 2 2 input with
    | .ok v => some v | .err _ => Option.none
  if rest = [] then some b else Option.none

/- ------------------------------------------------------------------ -/
/- ArrayVec as an io::copy sink (src/arrayvec.rs)                      -/
/- ------------------------------------------------------------------ -/

/-- `std::io::copy(&mut file, &mut arrayvec)` for an `ArrayVec<u8, cap>`:
`ArrayVec::write` accepts `min(spare_capacity, len)` bytes, so once the
buffer is full a further non-empty write returns `Ok(0)` and
`Write::write_all` inside `io::copy` fails with `WriteZero` — an
`IOError`. Content that fits is copied whole. -/
def copyToArrayVec (cap : Nat) (content : List Nat) : PciRes (List Nat) :=
  if cap < content.length then .err .ioError else .ok content

/-- Rust slice indexing `l.get(a..b)`: `Some` exactly when `a ≤ b ≤ len`. -/
def listSlice (l : List Nat) (a b : Nat) : Option (List Nat) :=
  if a ≤ b ∧ b ≤ l.length then some ((l.drop a).take (b - a)) else Option.none

/-- `u16::from_le_bytes([lo, hi])`. -/
def leBytesToU16 (s : List Nat) : Nat := s.getD 0 0 + 256 * s.getD 1 0

/- ------------------------------------------------------------------ -/
/- src/pci/linux_procfs.rs                                             -/
/- ------------------------------------------------------------------ -/

/-- `ProcBusProvider`: the raw configuration-space bytes held in an
`ArrayVec<u8, 72>`. -/
structure ProcBusProvider where
  buf : List Nat
deriving DecidableEq, Repr

/-- `ProcBusProvider::from_devfile`: copy the whole device file into the
72-byte buffer, then reject buffers shorter than 16 bytes as
`InvalidDevice`. -/
def ProcBusProvider.from_devfile (content : List Nat) : PciRes ProcBusProvider :=
  match copyToArrayVec 72 content with
  | .err e => .err e
  | .ok buf => if buf.length < 16 then .err .invalidDevice else .ok ⟨buf⟩

/-- `get_header_type` (`src/pci/linux_procfs.rs`): `dev.provider.buf[14]`,
the raw byte, with no mask applied. -/
def get_header_type (p : ProcBusProvider) : Nat := p.buf.getD 14 0

/-- procfs `get_class`: `[buf[11], buf[10]]` = `[class, subclass]`. -/
def ProcBusProvider.get_class (p : ProcBusProvider) : PciRes (List Nat) :=
  .ok [p.buf.getD 11 0, p.buf.getD 10 0]

/-- procfs `get_vendor`: `u16::from_le_bytes(buf[0..2])`. -/
def ProcBusProvider.get_vendor (p : ProcBusProvider) : PciRes Nat :=
  .ok (leBytesToU16 ((p.buf.drop 0).take 2))

/-- procfs `get_device`: `u16::from_le_bytes(buf[2..4])`. -/
def ProcBusProvider.get_device (p : ProcBusProvider) : PciRes Nat :=
  .ok (leBytesToU16 ((p.buf.drop 2).take 2))

/-- procfs `get_susbystem_vid`: match on the raw header-type byte; type 0
reads `buf.get(47..49)`, type 2 reads `buf.get(66..68)` (`InvalidDevice`
when out of range), anything else is `NotAvailable`. -/
def ProcBusProvider.get_susbystem_vid (p : ProcBusProvider) : PciRes Nat :=
  match get_header_type p with
  | 0 =>
    match listSlice p.buf 47 49 with
    | some s => .ok (leBytesToU16 s)
    | Option.none => .err .invalidDevice
  | 2 =>
    match listSlice p.buf 66 68 with
    | some s => .ok (leBytesToU16 s)
    | Option.none => .err .invalidDevice
  | _ => .err .notAvailable

/-- procfs `get_susbystem_did`: type 0 reads `buf.get(49..51)`, type 2
reads `buf.get(64..66)`, anything else is `NotAvailable`. -/
def ProcBusProvider.get_susbystem_did (p : ProcBusProvider) : PciRes Nat :=
  match get_header_type p with
  | 0 =>
    match listSlice p.buf 49 51 with
    | some s => .ok (leBytesToU16 s)
    | Option.none => .err .invalidDevice
  | 2 =>
    match listSlice p.buf 64 66 with
    | some s => .ok (leBytesToU16 s)
    | Option.none => .err .invalidDevice
  | _ => .err .notAvailable

/-- procfs `get_revision`: `buf[8]`. -/
def ProcBusProvider.get_revision (p : ProcBusProvider) : PciRes Nat :=
  .ok (p.buf.getD 8 0)

/- ------------------------------------------------------------------ -/
/- src/pci/linux_sysfs.rs                                              -/
/- ------------------------------------------------------------------ -/

/-- `SysBusProvider`: the sysfs device directory path, as a list of path
components (each a byte string). -/
structure SysBusProvider where
  path : List (List Nat)
deriving DecidableEq, Repr

/-- The ambient sysfs tree: maps a path to the content of the file there,
or to an open/read failure. -/
def SysFs := List (List Nat) → RResult Unit (List Nat)

/-- A sysfs double in which every file holds `content`. -/
def singleFileFs (content : List Nat) : SysFs := fun _ => .ok content

/-- Bytes of `"vendor"`. -/
def vendorAttr : List Nat := [118, 101, 110, 100, 111, 114]
/-- Bytes of `"device"`. -/
def deviceAttr : List Nat := [100, 101, 118, 105, 99, 101]
/-- Bytes of `"class"`. -/
def classAttr : List Nat := [99, 108, 97, 115, 115]
/-- Bytes of `"subsystem_vendor"`. -/
def subsystemVendorAttr : List Nat :=
  [115, 117, 98, 115, 121, 115, 116, 101, 109, 95, 118, 101, 110, 100, 111, 114]
/-- Bytes of `"subsystem_device"`. -/
def subsystemDeviceAttr : List Nat :=
  [115, 117, 98, 115, 121, 115, 116, 101, 109, 95, 100, 101, 118, 105, 99, 101]
/-- Bytes of `"revision"`. -/
def revisionAttr : List Nat := [114, 101, 118, 105, 115, 105, 111, 110]

/-- `chunks_exact(2)` over a byte slice: complete pairs, remainder
dropped. -/
def chunksExact2 : List Nat → List (Nat × Nat)
  | a :: b :: rest => (a, b) :: chunksExact2 rest
  | _ => []

/-- `(unhex(b0) << 4) + unhex(b1)` in `u8` (the `% 256` models `u8`
wrapping; `unhex` values are < 16 so no wrap actually occurs). -/
def hexPairByte (p : Nat × Nat) : Nat := (unhex p.1 * 16 + unhex p.2) % 256

/-- `(unhex(b0) << 4) | unhex(b1)` in `u8` — the variant `get_device` and
`get_revision` use. -/
def hexPairByteOr (p : Nat × Nat) : Nat := Nat.lor (unhex p.1 * 16 % 256) (unhex p.2)

/-- `.fold(0, |acc, hex| (acc << 8) | hex as u16)` in `u16`. -/
def foldU16BE (l : List Nat) : Nat := l.foldl (fun acc h => Nat.lor (acc * 256 % 65536) h) 0

/-- sysfs `get_class`: open `<path>/class` (`WrapPath` pushes the
component and pops it again when dropped), `io::copy` the content into an
`ArrayVec<u8, 64>`, hex-decode every byte pair, `skip(1)` to drop the
pair holding the `0x` prefix, and collect into an `ArrayVec<u8, 32>`
(which keeps at most 32 elements). -/
def sys_get_class (fs : SysFs) (dev : PciDevice SysBusProvider) :
    PciRes (List Nat) × PciDevice SysBusProvider :=
  let wrapped := dev.provider.path ++ [classAttr]
  let res : PciRes (List Nat) :=
    match fs wrapped with
    | .err _ => .err .ioError
    | .ok content =>
      match copyToArrayVec 64 content with
      | .err e => .err e
      | .ok buf => .ok ((((chunksExact2 buf).drop 1).map hexPairByte).take 32)
  (res, { dev with provider := ⟨wrapped.dropLast⟩ })

/-- sysfs `get_vendor`: open `<path>/vendor`, copy into `ArrayVec<u8,32>`,
`buf.get(2..6)` (`InvalidDevice` when shorter than 6 bytes), decode the
two pairs and fold them big-endian. -/
def sys_get_vendor (fs : SysFs) (dev : PciDevice SysBusProvider) :
    PciRes Nat × PciDevice SysBusProvider :=
  let wrapped := dev.provider.path ++ [vendorAttr]
  let res : PciRes Nat :=
    match fs wrapped with
    | .err _ => .err .ioError
    | .ok content =>
      match copyToArrayVec 32 content with
      | .err e => .err e
      | .ok buf =>
        match listSlice buf 2 6 with
        | some bytes => .ok (foldU16BE ((chunksExact2 bytes).map hexPairByte))
        | Option.none => .err .invalidDevice
  (res, { dev with provider := ⟨wrapped.dropLast⟩ })

/-- sysfs `get_device`: a single `file.read` into a zero-initialised
`[0u8; 32]` stack array (so short content is zero-padded and
`buf.get(2..6)` always succeeds), then the same big-endian pair fold,
written with `|` instead of `+`. -/
def sys_get_device (fs : SysFs) (dev : PciDevice SysBusProvider) :
    PciRes Nat × PciDevice SysBusProvider :=
  let wrapped := dev.provider.path ++ [deviceAttr]
  let res : PciRes Nat :=
    match fs wrapped with
    | .err _ => .err .ioError
    | .ok content =>
      let buf := content.take 32 ++ List.replicate (32 - content.length) 0
      match listSlice buf 2 6 with
      | some bytes => .ok (foldU16BE ((chunksExact2 bytes).map hexPairByteOr))
      | Option.none => .err .invalidDevice
  (res, { dev with provider := ⟨wrapped.dropLast⟩ })

/-- sysfs `get_susbystem_vid`: same shape as `get_vendor` on
`<path>/subsystem_vendor`. -/
def sys_get_susbystem_vid (fs : SysFs) (dev : PciDevice SysBusProvider) :
    PciRes Nat × PciDevice SysBusProvider :=
  let wrapped := dev.provider.path ++ [subsystemVendorAttr]
  let res : PciRes Nat :=
    match fs wrapped with
    | .err _ => .err .ioError
    | .ok content =>
      match copyToArrayVec 32 content with
      | .err e => .err e
      | .ok buf =>
        match listSlice buf 2 6 with
        | some bytes => .ok (foldU16BE ((chunksExact2 bytes).map hexPairByte))
        | Option.none => .err .invalidDevice
  (res, { dev with provider := ⟨wrapped.dropLast⟩ })

/-- sysfs `get_susbystem_did` on `<path>/subsystem_device`: as
`get_vendor`, but with an additional `.skip(1)` after `chunks_exact(2)`
— applied to `buf.get(2..6)`, which has already removed the `0x` prefix —
so only the second pair of `bytes 2..6` is folded. -/
def sys_get_susbystem_did (fs : SysFs) (dev : PciDevice SysBusProvider) :
    PciRes Nat × PciDevice SysBusProvider :=
  let wrapped := dev.provider.path ++ [subsystemDeviceAttr]
  let res : PciRes Nat :=
    match fs wrapped with
    | .err _ => .err .ioError
    | .ok content =>
      match copyToArrayVec 32 content with
      | .err e => .err e
      | .ok buf =>
        match listSlice buf 2 6 with
        | some bytes => .ok (foldU16BE (((chunksExact2 bytes).drop 1).map hexPairByte))
        | Option.none => .err .invalidDevice
  (res, { dev with provider := ⟨wrapped.dropLast⟩ })

/-- sysfs `get_revision` on `<path>/revision`: `buf.get(2..4)` then a
single pair decode with `|`. -/
def sys_get_revision (fs : SysFs) (dev : PciDevice SysBusProvider) :
    PciRes Nat × PciDevice SysBusProvider :=
  let wrapped := dev.provider.path ++ [revisionAttr]
  let res : PciRes Nat :=
    match fs wrapped with
    | .err _ => .err .ioError
    | .ok content =>
      match copyToArrayVec 32 content with
      | .err e => .err e
      | .ok buf =>
        match listSlice buf 2 4 with
        | some bytes => .ok (hexPairByteOr (bytes.getD 0 0, bytes.getD 1 0))
        | Option.none => .err .invalidDevice
  (res, { dev with provider := ⟨wrapped.dropLast⟩ })

/- ------------------------------------------------------------------ -/
/- Backend enumerators                                                 -/
/- ------------------------------------------------------------------ -/

/-- `List` concat-map, used to lay out the item sequence an iterator's
repeated `next()` calls produce. -/
def concatMap {α β : Type} (f : α → List β) : List α → List β
  | [] => []
  | a :: rest => f a ++ concatMap f rest

/-- Bytes of `"/sys/bus/pci/devices"`, the sysfs enumeration root. -/
def sysDevicesRoot : List Nat :=
  [47, 115, 121, 115, 47, 98, 117, 115, 47, 112, 99, 105, 47, 100, 101, 118,
   105, 99, 101, 115]

/-- One raw directory entry as seen by `ReadDir`: either an I/O failure or
an entry with a file name. -/
inductive SysDirEntry where
  | ioErr
  | entry (name : List Nat)
deriving DecidableEq, Repr

/-- The items a single sysfs directory entry contributes to
`SysBusBackend`'s iteration (`impl Iterator for SysBusBackend`,
`src/pci/linux_sysfs.rs`): an I/O failure is yielded as `IOError`; a name
that parses is yielded as a device whose provider path is the entry's
path; a name that fails to parse is logged with `warn!` and skipped — the
loop `continue`s without yielding anything. -/
def sysEntryItems : SysDirEntry → List (PciRes (PciDevice SysBusProvider))
  | .ioErr => [.err .ioError]
  | .entry name =>
    match parse_device name with
    | some dev =>
      [.ok ⟨dev.domain, dev.bus, dev.device, dev.function, ⟨[sysDevicesRoot, name]⟩⟩]
    | Option.none => []

/-- The full item sequence of a sysfs enumeration over the given directory
entries. -/
def sysEnumerate (entries : List SysDirEntry) : List (PciRes (PciDevice SysBusProvider)) :=
  concatMap sysEntryItems entries

/-- A procfs per-bus directory entry: an I/O failure, or a device file
with its name and content. -/
inductive ProcDevEntry where
  | ioErr
  | file (name : List Nat) (content : List Nat)
deriving DecidableEq, Repr

/-- A top-level `/proc/bus/pci/` entry: an I/O failure, or a directory
with its name and (when `read_dir` succeeds) its device entries. -/
inductive ProcBusEntry where
  | ioErr
  | dir (name : List Nat) (sub : Option (List ProcDevEntry))
deriving DecidableEq, Repr

/-- Bytes of `"devices"`, the aggregate file skipped by the procfs
enumerator. -/
def devicesName : List Nat := [100, 101, 118, 105, 99, 101, 115]

/-- The items one procfs device file contributes (`impl Iterator for
ProcBusBackend`, `src/pci/linux_procfs.rs`): iterator errors become
`IOError` items; a filename that fails `parse_dev_file` yields an
`InvalidDevice` item (and iteration continues with the next entry); a
parsed device is loaded with `from_devfile`, whose failure is yielded
verbatim; `dev.bus` is set to the surrounding bus. -/
def procDevItems (b : Nat) : ProcDevEntry → List (PciRes (PciDevice ProcBusProvider))
  | .ioErr => [.err .ioError]
  | .file name content =>
    match parse_dev_file name with
    | Option.none => [.err .invalidDevice]
    | some dev =>
      match ProcBusProvider.from_devfile content with
      | .err e => [.err e]
      | .ok prov => [.ok ⟨dev.domain, b, dev.device, dev.function, prov⟩]

/-- The items one top-level procfs entry contributes: I/O failures become
`IOError` items; the `devices` aggregate entry is skipped; a failed
`read_dir` on the bus directory yields `IOError`; a bus name that fails
`FixedLengthHex(2)` yields `InvalidDevice`; otherwise the bus's device
files are iterated. -/
def procBusItems : ProcBusEntry → List (PciRes (PciDevice ProcBusProvider))
  | .ioErr => [.err .ioError]
  | .dir name sub =>
    if name = devicesName then []
    else
      match sub with
      | Option.none => [.err .ioError]
      | some devs =>
        match parse_bus name with
        | Option.none => [.err .invalidDevice]
        | some b => concatMap (procDevItems b) devs

/-- The full item sequence of a procfs enumeration over the given tree. -/
def procEnumerate (buses : List ProcBusEntry) : List (PciRes (PciDevice ProcBusProvider)) :=
  concatMap procBusItems buses

/- ------------------------------------------------------------------ -/
/- AutoProvider and AutoSelect (src/pci/mod.rs)                        -/
/- ------------------------------------------------------------------ -/

/-- `AutoProvider`: tagged union over the two concrete providers plus the
transient `None` used by `to_owned_dev`'s swap. -/
inductive AutoProvider where
  | sysFS (p : SysBusProvider)
  | procFS (p : ProcBusProvider)
  | none
deriving DecidableEq, Repr

/-- The bare discriminant of an `AutoProvider` value. -/
inductive ProviderTag where
  | sysFS
  | procFS
  | none
deriving DecidableEq, Repr

/-- Which variant an `AutoProvider` holds. -/
def AutoProvider.tag : AutoProvider → ProviderTag
  | .sysFS _ => .sysFS
  | .procFS _ => .procFS
  | .none => .none

/-- A result value common to the six attribute queries: `get_class`
returns bytes, the other five return integers. -/
inductive QueryOut where
  | bytes (l : List Nat)
  | word (n : Nat)
deriving DecidableEq, Repr

/-- The six attribute queries of `PciInfoProvider`. -/
inductive Query where
  | qClass
  | qVendor
  | qDevice
  | qRevision
  | qSusbystemVid
  | qSusbystemDid
deriving DecidableEq, Repr

/-- Dispatch of one query to `SysBusProvider`'s implementation. -/
def sysQuery (fs : SysFs) (q : Query) (dev : PciDevice SysBusProvider) :
    PciRes QueryOut × PciDevice SysBusProvider :=
  match q with
  | .qClass => let (r, d) := sys_get_class fs dev; (r.mapv .bytes, d)
  | .qVendor => let (r, d) := sys_get_vendor fs dev; (r.mapv .word, d)
  | .qDevice => let (r, d) := sys_get_device fs dev; (r.mapv .word, d)
  | .qRevision => let (r, d) := sys_get_revision fs dev; (r.mapv .word, d)
  | .qSusbystemVid => let (r, d) := sys_get_susbystem_vid fs dev; (r.mapv .word, d)
  | .qSusbystemDid => let (r, d) := sys_get_susbystem_did fs dev; (r.mapv .word, d)

/-- Dispatch of one query to `ProcBusProvider`'s implementation (these
take `&mut` but never mutate the device). -/
def procQuery (q : Query) (dev : PciDevice ProcBusProvider) :
    PciRes QueryOut × PciDevice ProcBusProvider :=
  match q with
  | .qClass => ((dev.provider.get_class).mapv .bytes, dev)
  | .qVendor => ((dev.provider.get_vendor).mapv .word, dev)
  | .qDevice => ((dev.provider.get_device).mapv .word, dev)
  | .qRevision => ((dev.provider.get_revision).mapv .word, dev)
  | .qSusbystemVid => ((dev.provider.get_susbystem_vid).mapv .word, dev)
  | .qSusbystemDid => ((dev.provider.get_susbystem_did).mapv .word, dev)

/-- The body the `delegate!` macro expands to for each query
(`src/pci/mod.rs`): `to_owned_dev` swaps the handle out (leaving the
transient `None` placeholder), the active variant's implementation runs
on a rebuilt concrete-provider device, the possibly updated device is
re-wrapped in the same variant, and the handle is restored; the `None`
variant answers `NotAvailable` and is restored unchanged. In this pure
embedding the swap is ownership transfer by destructuring. -/
def delegate {α : Type}
    (sysQ : PciDevice SysBusProvider → RResult PciBackendError α × PciDevice SysBusProvider)
    (procQ : PciDevice ProcBusProvider → RResult PciBackendError α × PciDevice ProcBusProvider)
    (pcidev : PciDevice AutoProvider) :
    RResult PciBackendError α × PciDevice AutoProvider :=
  match pcidev with
  | ⟨domain, bus, device, function, .sysFS p⟩ =>
    let (ret, d) := sysQ ⟨domain, bus, device, function, p⟩
    (ret, ⟨d.domain, d.bus, d.device, d.function, .sysFS d.provider⟩)
  | ⟨domain, bus, device, function, .procFS p⟩ =>
    let (ret, d) := procQ ⟨domain, bus, device, function, p⟩
    (ret, ⟨d.domain, d.bus, d.device, d.function, .procFS d.provider⟩)
  | ⟨domain, bus, device, function, .none⟩ =>
    (.err .notAvailable, ⟨domain, bus, device, function, .none⟩)

/-- `impl PciInfoProvider for AutoProvider`: every query goes through the
`delegate!` expansion. -/
def autoQuery (fs : SysFs) (q : Query) (dev : PciDevice AutoProvider) :
    PciRes QueryOut × PciDevice AutoProvider :=
  delegate (sysQuery fs q) (procQuery q) dev

/-- `PciAutoIter`: either backend's iterator state. -/
inductive PciAutoIter (S P : Type) where
  | sysFS (b : S)
  | procFS (b : P)
deriving DecidableEq, Repr

/-- `PciAutoIter::try_init` (`src/pci/mod.rs`):
`sysfs(()).or_else(proc)` where `sysfs` and `proc` run the respective
backend's `try_init` and wrap its state. The two arguments stand for the
outcomes of those two calls in the ambient filesystem. -/
def PciAutoIter.try_init {S P : Type}
    (sysInit : PciRes S) (procInit : PciRes P) : PciRes (PciAutoIter S P) :=
  match sysInit.mapv PciAutoIter.sysFS with
  | .ok v => .ok v
  | .err _ => procInit.mapv PciAutoIter.procFS

/-- `SysBusBackend::try_init` / `ProcBusBackend::try_init`: a `read_dir`
failure on the backend root becomes `NotAvailable`. -/
def backendTryInit {D : Type} (readDirResult : RResult Unit D) : PciRes D :=
  match readDirResult with
  | .ok d => .ok d
  | .err _ => .err .notAvailable

/- ------------------------------------------------------------------ -/
/- Address formatting (no such routine exists in the repository)       -/
/- ------------------------------------------------------------------ -/

/-- Lowercase hex digit character for a nibble. -/
def toHexDigitChar (v : Nat) : Nat := if v < 10 then 48 + v else 87 + v

/-- Modelled from the spec: the repository contains no routine that
renders a PCI address back to `DDDD:BB:DD.F` text (its `Debug`
implementation prints a debug struct instead), so the formatting half of
the spec's round-trip property is modelled from the spec's address
shape: domain as 4 lowercase hex digits, bus and device as 2, function
as 1, with literal `:` and `.` separators. -/
def formatPciAddr (a : PciAddr) : List Nat :=
  [toHexDigitChar (a.domain / 4096 % 16), toHexDigitChar (a.domain / 256 % 16),
   toHexDigitChar (a.domain / 16 % 16), toHexDigitChar (a.domain % 16), 58,
   toHexDigitChar (a.bus / 16 % 16), toHexDigitChar (a.bus % 16), 58,
   toHexDigitChar (a.device / 16 % 16), toHexDigitChar (a.device % 16), 46,
   toHexDigitChar (a.function % 16)]

/-- A well-formed address: each field fits its fixed-width hex field. -/
def PciAddr.wellFormed (a : PciAddr) : Prop :=
  a.domain < 65536 ∧ a.bus < 256 ∧ a.device < 256 ∧ a.function < 16

/- ------------------------------------------------------------------ -/
/- Concrete fixtures and claim statements under test                   -/
/- ------------------------------------------------------------------ -/

/-- A sysfs device handle with an empty path, for concrete evaluations. -/
def devW : PciDevice SysBusProvider := ⟨0, 0, 0, 0, ⟨[]⟩⟩

/-- Bytes of `"0x8086\n"`, a typical sysfs vendor/device attribute file. -/
def content8086 : List Nat := [48, 120, 56, 48, 56, 54, 10]

/-- Bytes of `"0x030000\n"`, a standard sysfs `class` attribute file. -/
def content030000 : List Nat := [48, 120, 48, 51, 48, 48, 48, 48, 10]

/-- A sysfs double in which every open fails. -/
def fsW : SysFs := fun _ => .err ()

/-- A unified handle holding the transient `None` provider. -/
def devN : PciDevice AutoProvider := ⟨1, 2, 3, 4, .none⟩

/-- The claim under test for the procfs subsystem queries: for any
provider whose buffer holds at least 16 bytes, the queries mask the
header-type byte at offset 14 to the header-type discriminant (`& 0x7f`,
i.e. `% 128`) and return the little-endian `u16` at 47–49/49–51 for
discriminant 0, at 66–68/64–66 for discriminant 2, and `NotAvailable`
otherwise. -/
def C1_claim : Prop :=
  ∀ p : ProcBusProvider, 16 ≤ p.buf.length →
    (get_header_type p % 128 = 0 →
      p.get_susbystem_vid = .ok (p.buf.getD 47 0 + 256 * p.buf.getD 48 0) ∧
      p.get_susbystem_did = .ok (p.buf.getD 49 0 + 256 * p.buf.getD 50 0)) ∧
    (get_header_type p % 128 = 2 →
      p.get_susbystem_vid = .ok (p.buf.getD 66 0 + 256 * p.buf.getD 67 0) ∧
      p.get_susbystem_did = .ok (p.buf.getD 64 0 + 256 * p.buf.getD 65 0)) ∧
    (get_header_type p % 128 ≠ 0 → get_header_type p % 128 ≠ 2 →
      p.get_susbystem_vid = .err .notAvailable ∧
      p.get_susbystem_did = .err .notAvailable)

/-- The claim under test for enumeration of malformed entries: a sysfs
directory entry whose name does not parse as an address is yielded as an
inline error item of the result sequence. -/
def C4_claim : Prop :=
  ∀ name : List Nat, parse_device name = Option.none →
    ∃ e, RResult.err e ∈ sysEnumerate [SysDirEntry.entry name]

/- ------------------------------------------------------------------ -/
/- Helper lemmas                                                       -/
/- ------------------------------------------------------------------ -/

theorem unhexLUT_getD (b : Nat) (hb : b < 256) : unhexLUT.getD b 0 = unhexEntry b := by
  simp [unhexLUT, List.getD_eq_getElem?_getD, List.getElem?_map, List.getElem?_range, hb]

theorem unhex_eq_unhexEntry (b : Nat) (hb : b < 256) : unhex b = unhexEntry b := by
  rw [unhex, Nat.mod_eq_of_lt hb, unhexLUT_getD b hb]

theorem chunksExact2_length : ∀ l : List Nat, (chunksExact2 l).length = l.length / 2
  | [] => by simp [chunksExact2]
  | [_] => by simp [chunksExact2]
  | _ :: _ :: rest => by
    simp only [chunksExact2, List.length_cons, chunksExact2_length rest]
    omega

/- ------------------------------------------------------------------ -/
/- C8: FixedLengthHex                                                  -/
/- ------------------------------------------------------------------ -/

/-- C8: `FixedLengthHex(n)` consumes exactly `n` bytes on success and
fails with the dedicated "not enough bytes" error when fewer than `n`
bytes remain, which is distinct from the "invalid hex digits" error;
concretely, `FixedLengthHex(2)` yields `0xab` (and consumes everything)
on `"ab"`, fails with the length error on `"a"`, and fails with the
digit error on `"zz"`. -/
theorem fixedLengthHex_spec (m n : Nat) (input : List Nat) :
    (input.length < n → FixedLengthHex m n input = .err .notEnoughBytes) ∧
    (∀ v rest, FixedLengthHex m n input = .ok (v, rest) →
      n ≤ input.length ∧ rest = input.drop n) ∧
    FixedLengthHex 2 2 [97, 98] = .ok (171, []) ∧
    FixedLengthHex 2 2 [97] = .err .notEnoughBytes ∧
    FixedLengthHex 2 2 [122, 122] = .err .invalidHexDigits ∧
    HexFieldError.notEnoughBytes ≠ HexFieldError.invalidHexDigits := by
  refine ⟨?_, ?_, by decide, by decide, by decide, by decide⟩
  · intro h
    simp [FixedLengthHex, h]
  · intro v rest h
    by_cases hlen : input.length < n
    · simp [FixedLengthHex, hlen] at h
    · constructor
      · omega
      · rw [FixedLengthHex, if_neg hlen] at h
        rcases hu : hexUint m (input.take n) with _ | w <;> rw [hu] at h <;> simp at h
        exact h.2.symm

/-- C8 witness: the length-error case at a concrete short input. -/
theorem fixedLengthHex_spec_witness :
    FixedLengthHex 2 2 [97] = .err .notEnoughBytes :=
  (fixedLengthHex_spec 2 2 [97]).1 (by decide)

/- ------------------------------------------------------------------ -/
/- C9: unhex                                                           -/
/- ------------------------------------------------------------------ -/

/-- C9: for every byte, `unhex` returns the 4-bit value of an ASCII
`0`-`9` or `a`-`f` character and 0 for every other byte (uppercase
included), is total, and is realised as a lookup in the precomputed
256-entry table. -/
theorem unhex_spec (b : Nat) (hb : b < 256) :
    (48 ≤ b ∧ b ≤ 57 → unhex b = b - 48) ∧
    (97 ≤ b ∧ b ≤ 102 → unhex b = b - 97 + 10) ∧
    (¬(48 ≤ b ∧ b ≤ 57) → ¬(97 ≤ b ∧ b ≤ 102) → unhex b = 0) ∧
    unhexLUT.length = 256 ∧ unhex b = unhexLUT.getD b 0 := by
  have he := unhex_eq_unhexEntry b hb
  refine ⟨?_, ?_, ?_, by simp [unhexLUT], ?_⟩
  · intro h; rw [he, unhexEntry, if_pos h]
  · intro h
    rw [he, unhexEntry, if_neg (by omega), if_pos h]
  · intro h1 h2
    rw [he, unhexEntry, if_neg h1, if_neg h2]
  · rw [unhex, Nat.mod_eq_of_lt hb]

/-- C9 witness: `'z'` (byte 122) and `'A'` (byte 65) decode to 0, and
`'f'` (102) decodes to 15. -/
theorem unhex_spec_witness :
    unhex 122 = 0 ∧ unhex 65 = 0 ∧ unhex 102 = 97 - 97 + 10 + 5 := by
  refine ⟨(unhex_spec 122 (by decide)).2.2.1 (by decide) (by decide),
    (unhex_spec 65 (by decide)).2.2.1 (by decide) (by decide), ?_⟩
  have := (unhex_spec 102 (by decide)).2.1 (by decide)
  omega

/- ------------------------------------------------------------------ -/
/- C2: sysfs 16-bit attribute decoding                                 -/
/- ------------------------------------------------------------------ -/

/-- C2: on the attribute file content `"0x8086\n"`, the sysfs vendor,
device, and subsystem-vendor queries all decode `0x8086`, but the
subsystem-device query applies `.skip(1)` a second time after
`buf.get(2..6)` has already removed the `0x` prefix, so it folds only the
second hex pair and returns `0x86` instead of `0x8086`. -/
theorem sys_susbystem_did_drops_high_byte :
    (sys_get_vendor (singleFileFs content8086) devW).1 = .ok 0x8086 ∧
    (sys_get_device (singleFileFs content8086) devW).1 = .ok 0x8086 ∧
    (sys_get_susbystem_vid (singleFileFs content8086) devW).1 = .ok 0x8086 ∧
    (sys_get_susbystem_did (singleFileFs content8086) devW).1 = .ok 0x86 ∧
    (0x86 : Nat) ≠ 0x8086 := by decide

/- ------------------------------------------------------------------ -/
/- C3: sysfs class decoding                                            -/
/- ------------------------------------------------------------------ -/

/-- C3 counterexample: on the standard class file content `"0x030000\n"`
the sysfs class query returns three decoded bytes, not two. -/
theorem sys_class_not_two_bytes :
    (sys_get_class (singleFileFs content030000) devW).1 = .ok [3, 0, 0] ∧
    ¬ ([3, 0, 0] : List Nat).length = 2 := by decide

/-- C3 (amended): the sysfs class query hex-decodes every byte pair of
the content, skips the first pair (the `0x` artifact), and returns all
remaining pairs — `⌊n/2⌋ - 1` bytes, capped at the 32-byte collect
buffer — never an error for content within the 64-byte read buffer. -/
theorem sys_get_class_length (content : List Nat) (dev : PciDevice SysBusProvider)
    (h : content.length ≤ 64) :
    ∃ l, (sys_get_class (singleFileFs content) dev).1 = .ok l ∧
      l.length = min (content.length / 2 - 1) 32 := by
  refine ⟨(((chunksExact2 content).drop 1).map hexPairByte).take 32, ?_, ?_⟩
  · simp [sys_get_class, singleFileFs, copyToArrayVec, Nat.not_lt.mpr h]
  · simp [List.length_take, List.length_map, List.length_drop, chunksExact2_length,
      Nat.min_comm]

/-- C3 witness: the amended statement applied to `"0x030000\n"`. -/
theorem sys_get_class_length_witness :
    ∃ l, (sys_get_class (singleFileFs content030000) devW).1 = .ok l ∧
      l.length = min (content030000.length / 2 - 1) 32 :=
  sys_get_class_length content030000 devW (by decide)

/- ------------------------------------------------------------------ -/
/- C4: malformed entries during enumeration                            -/
/- ------------------------------------------------------------------ -/

/-- C4 counterexample: the sysfs enumerator does not yield any item for a
malformed directory entry — enumerating a directory holding only the
unparsable name `"z"` produces an empty result sequence, with no inline
error item. -/
theorem sysfs_malformed_entry_dropped : ¬ C4_claim := by
  intro h
  obtain ⟨e, he⟩ := h [122] (by decide)
  simp [sysEnumerate, concatMap, sysEntryItems,
    (by decide : parse_device [122] = Option.none)] at he

/-- C4 (amended): a sysfs directory entry whose name fails to parse is
logged and silently skipped — it contributes no item and enumeration
continues with the remaining entries; the procfs enumerator, in
contrast, yields an inline `InvalidDevice` item for a malformed device
filename or bus directory name and then continues; in neither backend
does a malformed entry terminate the traversal. -/
theorem enumerate_malformed_entries :
    (∀ name rest, parse_device name = Option.none →
      sysEnumerate (SysDirEntry.entry name :: rest) = sysEnumerate rest) ∧
    (∀ b name content ds, parse_dev_file name = Option.none →
      concatMap (procDevItems b) (ProcDevEntry.file name content :: ds) =
        RResult.err PciBackendError.invalidDevice :: concatMap (procDevItems b) ds) ∧
    (∀ name devs rest, name ≠ devicesName → parse_bus name = Option.none →
      procEnumerate (ProcBusEntry.dir name (some devs) :: rest) =
        RResult.err PciBackendError.invalidDevice :: procEnumerate rest) := by
  refine ⟨?_, ?_, ?_⟩
  · intro name rest hp
    simp [sysEnumerate, concatMap, sysEntryItems, hp]
  · intro b name content ds hp
    simp [concatMap, procDevItems, hp]
  · intro name devs rest hn hp
    simp [procEnumerate, concatMap, procBusItems, hn, hp]

/-- C4 witness: the amended statement at concrete malformed names. -/
theorem enumerate_malformed_entries_witness :
    sysEnumerate [SysDirEntry.entry [122]] = sysEnumerate [] ∧
    concatMap (procDevItems 0) [ProcDevEntry.file [122] []] =
      [RResult.err PciBackendError.invalidDevice] ∧
    procEnumerate [ProcBusEntry.dir [122] (some [])] =
      [RResult.err PciBackendError.invalidDevice] := by
  refine ⟨enumerate_malformed_entries.1 [122] [] (by decide), ?_, ?_⟩
  · have := enumerate_malformed_entries.2.1 0 [122] [] [] (by decide)
    simpa [concatMap] using this
  · have := enumerate_malformed_entries.2.2 [122] [] [] (by decide) (by decide)
    simpa [procEnumerate, concatMap] using this

/- ------------------------------------------------------------------ -/
/- C5: AutoSelect initialization order                                 -/
/- ------------------------------------------------------------------ -/

/-- C5: `PciAutoIter::try_init` takes the sysfs result when sysfs
initialization succeeds (ignoring procfs entirely), and otherwise
returns exactly the procfs result: procfs success gives a procfs-backed
iterator and procfs failure is surfaced as the terminal error. -/
theorem auto_try_init_order {S P : Type} (s : PciRes S) (p : PciRes P) :
    (∀ b, s = .ok b →
      PciAutoIter.try_init s p = .ok (.sysFS b) ∧
      ∀ p2 : PciRes P, PciAutoIter.try_init s p2 = PciAutoIter.try_init s p) ∧
    (∀ e, s = .err e →
      PciAutoIter.try_init s p = p.mapv PciAutoIter.procFS ∧
      (∀ b, p = .ok b → PciAutoIter.try_init s p = .ok (.procFS b)) ∧
      (∀ e2, p = .err e2 → PciAutoIter.try_init s p = .err e2)) := by
  constructor
  · rintro b rfl
    exact ⟨rfl, fun p2 => rfl⟩
  · rintro e rfl
    refine ⟨rfl, ?_, ?_⟩
    · rintro b rfl; rfl
    · rintro e2 rfl; rfl

/-- C5 witness: sysfs failure with procfs failure surfaces the procfs
error value; sysfs success is sysfs-backed. -/
theorem auto_try_init_order_witness :
    PciAutoIter.try_init (S := Unit) (P := Unit) (.err .notAvailable) (.err .ioError) =
      .err .ioError ∧
    PciAutoIter.try_init (S := Unit) (P := Unit) (.ok ()) (.err .ioError) =
      .ok (.sysFS ()) :=
  ⟨((auto_try_init_order (.err .notAvailable) (.err .ioError)).2 .notAvailable rfl).2.2
      .ioError rfl,
   ((auto_try_init_order (.ok ()) (.err .ioError)).1 () rfl).1⟩

/- ------------------------------------------------------------------ -/
/- C7: procfs provider construction and in-bounds reads                -/
/- ------------------------------------------------------------------ -/

/-- C7: `from_devfile` rejects content shorter than 16 bytes as
`InvalidDevice`; every successfully constructed provider has a buffer of
at least 16 bytes, so every fixed offset the attribute queries index
(0, 1, 2, 3, 8, 10, 11 and 14 — all at most 14) is in bounds. -/
theorem from_devfile_bounds (content : List Nat) :
    (content.length < 16 → ProcBusProvider.from_devfile content = .err .invalidDevice) ∧
    (∀ p, ProcBusProvider.from_devfile content = .ok p →
      16 ≤ p.buf.length ∧ ∀ i, i ≤ 14 → (p.buf[i]?).isSome) := by
  constructor
  · intro h
    simp [ProcBusProvider.from_devfile, copyToArrayVec, Nat.not_lt.mpr (by omega : content.length ≤ 72), h]
  · intro p hp
    obtain ⟨buf⟩ := p
    by_cases h72 : 72 < content.length
    · simp [ProcBusProvider.from_devfile, copyToArrayVec, h72] at hp
    · by_cases h16 : content.length < 16
      · simp [ProcBusProvider.from_devfile, copyToArrayVec, h72, h16] at hp
      · simp [ProcBusProvider.from_devfile, copyToArrayVec, h72, h16] at hp
        subst hp
        refine ⟨by simpa using Nat.not_lt.mp h16, ?_⟩
        intro i hi
        have hlt : i < content.length := by omega
        simp [List.getElem?_eq_getElem hlt]

/-- C7 witness: 10-byte content is rejected as `InvalidDevice`. -/
theorem from_devfile_bounds_witness :
    ProcBusProvider.from_devfile (List.replicate 10 0) = .err .invalidDevice :=
  (from_devfile_bounds (List.replicate 10 0)).1 (by decide)

/- ------------------------------------------------------------------ -/
/- C6: AutoProvider dispatch preserves the handle                      -/
/- ------------------------------------------------------------------ -/

/-- C6: every attribute query on a unified handle leaves the handle with
the same provider variant and the same domain, bus, device, and function
fields it had before the call; a handle found holding the transient
`None` placeholder answers `NotAvailable` and is restored unchanged, so
the dispatch itself never leaves `None` behind. -/
theorem autoQuery_preserves_variant (fs : SysFs) (q : Query) (dev : PciDevice AutoProvider) :
    (autoQuery fs q dev).2.domain = dev.domain ∧
    (autoQuery fs q dev).2.bus = dev.bus ∧
    (autoQuery fs q dev).2.device = dev.device ∧
    (autoQuery fs q dev).2.function = dev.function ∧
    (autoQuery fs q dev).2.provider.tag = dev.provider.tag ∧
    (dev.provider = AutoProvider.none →
      (autoQuery fs q dev).1 = .err .notAvailable ∧ (autoQuery fs q dev).2 = dev) := by
  obtain ⟨d, b, dv, f, pr⟩ := dev
  cases pr <;> cases q <;>
    simp [autoQuery, delegate, sysQuery, procQuery, AutoProvider.tag,
      sys_get_class, sys_get_vendor, sys_get_device, sys_get_revision,
      sys_get_susbystem_vid, sys_get_susbystem_did]

/-- C6 witness: a query on a handle holding the transient `None`
placeholder returns `NotAvailable` and the handle is unchanged. -/
theorem autoQuery_preserves_variant_witness :
    (autoQuery fsW .qVendor devN).1 = .err .notAvailable ∧
    (autoQuery fsW .qVendor devN).2 = devN :=
  (autoQuery_preserves_variant fsW .qVendor devN).2.2.2.2.2 rfl

/- ------------------------------------------------------------------ -/
/- C1: procfs subsystem queries                                        -/
/- ------------------------------------------------------------------ -/

theorem leBytesToU16_slice (l : List Nat) (a : Nat) (h : a + 2 ≤ l.length) :
    leBytesToU16 ((l.drop a).take 2) = l.getD a 0 + 256 * l.getD (a + 1) 0 := by
  simp [leBytesToU16, List.getD_eq_getElem?_getD, List.getElem?_take, List.getElem?_drop]

theorem listSlice_eq_some (l : List Nat) (a b : Nat) (h1 : a ≤ b) (h2 : b ≤ l.length) :
    listSlice l a b = some ((l.drop a).take (b - a)) := by
  simp [listSlice, h1, h2]

theorem listSlice_eq_none (l : List Nat) (a b : Nat) (h2 : l.length < b) :
    listSlice l a b = Option.none := by
  rw [listSlice, if_neg]
  omega

theorem proc_svid_default (p : ProcBusProvider) (h0 : get_header_type p ≠ 0)
    (h2 : get_header_type p ≠ 2) : p.get_susbystem_vid = .err .notAvailable := by
  rw [ProcBusProvider.get_susbystem_vid.eq_def]
  split
  · omega
  · omega
  · rfl

theorem proc_sdid_default (p : ProcBusProvider) (h0 : get_header_type p ≠ 0)
    (h2 : get_header_type p ≠ 2) : p.get_susbystem_did = .err .notAvailable := by
  rw [ProcBusProvider.get_susbystem_did.eq_def]
  split
  · omega
  · omega
  · rfl

theorem proc_svid_ne_ioError (p : ProcBusProvider) : p.get_susbystem_vid ≠ .err .ioError := by
  rw [ProcBusProvider.get_susbystem_vid.eq_def]
  split
  · split <;> simp
  · split <;> simp
  · simp

theorem proc_sdid_ne_ioError (p : ProcBusProvider) : p.get_susbystem_did ≠ .err .ioError := by
  rw [ProcBusProvider.get_susbystem_did.eq_def]
  split
  · split <;> simp
  · split <;> simp
  · simp

/-- C1 counterexample: a 16-byte buffer (all zero) has header-type
discriminant 0, yet the subsystem-vendor query returns `InvalidDevice`
rather than the little-endian `u16` at bytes 47–49 — the queries also do
not mask the header byte, so the claim as stated fails already at the
minimal buffer its own precondition admits. -/
theorem proc_subsystem_mask_counterexample : ¬ C1_claim := by
  intro h
  have h1 := ((h ⟨List.replicate 16 0⟩ (by decide)).1 (by decide)).1
  exact absurd h1 (by decide)

/-- C1 (amended): the procfs subsystem queries match the raw header-type
byte at offset 14 (no masking): for byte 0 the subsystem vendor is the
little-endian `u16` at bytes 47–49 and the device at 49–51, for byte 2
the vendor is at 66–68 and the device at 64–66 — in each case provided
the buffer is long enough, and `InvalidDevice` otherwise; every other
raw byte value (including `0x80`, whose masked discriminant would be 0)
gives `NotAvailable`; no outcome is ever an `IOError`. -/
theorem proc_subsystem_queries_spec (p : ProcBusProvider) (hlen : 16 ≤ p.buf.length) :
    (get_header_type p = 0 →
      (49 ≤ p.buf.length →
        p.get_susbystem_vid = .ok (p.buf.getD 47 0 + 256 * p.buf.getD 48 0)) ∧
      (p.buf.length < 49 → p.get_susbystem_vid = .err .invalidDevice) ∧
      (51 ≤ p.buf.length →
        p.get_susbystem_did = .ok (p.buf.getD 49 0 + 256 * p.buf.getD 50 0)) ∧
      (p.buf.length < 51 → p.get_susbystem_did = .err .invalidDevice)) ∧
    (get_header_type p = 2 →
      (68 ≤ p.buf.length →
        p.get_susbystem_vid = .ok (p.buf.getD 66 0 + 256 * p.buf.getD 67 0)) ∧
      (p.buf.length < 68 → p.get_susbystem_vid = .err .invalidDevice) ∧
      (66 ≤ p.buf.length →
        p.get_susbystem_did = .ok (p.buf.getD 64 0 + 256 * p.buf.getD 65 0)) ∧
      (p.buf.length < 66 → p.get_susbystem_did = .err .invalidDevice)) ∧
    (get_header_type p ≠ 0 → get_header_type p ≠ 2 →
      p.get_susbystem_vid = .err .notAvailable ∧
      p.get_susbystem_did = .err .notAvailable) ∧
    p.get_susbystem_vid ≠ .err .ioError ∧ p.get_susbystem_did ≠ .err .ioError := by
  refine ⟨?_, ?_, fun h0 h2 => ⟨proc_svid_default p h0 h2, proc_sdid_default p h0 h2⟩,
    proc_svid_ne_ioError p, proc_sdid_ne_ioError p⟩
  · intro h0
    refine ⟨?_, ?_, ?_, ?_⟩
    · intro h49
      simp [ProcBusProvider.get_susbystem_vid, h0,
        listSlice_eq_some p.buf 47 49 (by omega) h49,
        leBytesToU16_slice p.buf 47 (by omega)]
    · intro h49
      simp [ProcBusProvider.get_susbystem_vid, h0, listSlice_eq_none p.buf 47 49 h49]
    · intro h51
      simp [ProcBusProvider.get_susbystem_did, h0,
        listSlice_eq_some p.buf 49 51 (by omega) h51,
        leBytesToU16_slice p.buf 49 (by omega)]
    · intro h51
      simp [ProcBusProvider.get_susbystem_did, h0, listSlice_eq_none p.buf 49 51 h51]
  · intro h2
    refine ⟨?_, ?_, ?_, ?_⟩
    · intro h68
      simp [ProcBusProvider.get_susbystem_vid, h2,
        listSlice_eq_some p.buf 66 68 (by omega) h68,
        leBytesToU16_slice p.buf 66 (by omega)]
    · intro h68
      simp [ProcBusProvider.get_susbystem_vid, h2, listSlice_eq_none p.buf 66 68 h68]
    · intro h66
      simp [ProcBusProvider.get_susbystem_did, h2,
        listSlice_eq_some p.buf 64 66 (by omega) h66,
        leBytesToU16_slice p.buf 64 (by omega)]
    · intro h66
      simp [ProcBusProvider.get_susbystem_did, h2, listSlice_eq_none p.buf 64 66 h66]

/-- C1 witness: the amended statement at a 51-byte type-0 buffer. -/
theorem proc_subsystem_queries_spec_witness :
    ProcBusProvider.get_susbystem_vid ⟨List.replicate 51 0⟩ =
      .ok ((List.replicate 51 0).getD 47 0 + 256 * (List.replicate 51 0).getD 48 0) :=
  (((proc_subsystem_queries_spec ⟨List.replicate 51 0⟩ (by decide)).1 (by decide)).1
    (by decide))

/- ------------------------------------------------------------------ -/
/- C10: address parse and format/parse round trip                      -/
/- ------------------------------------------------------------------ -/

theorem toHexDigitChar_hex (v : Nat) (h : v < 16) :
    isWinnowHexDigit (toHexDigitChar v) = true := by
  interval_cases v <;> decide

theorem hexDigitVal_toHexDigitChar (v : Nat) (h : v < 16) :
    hexDigitVal (toHexDigitChar v) = v := by
  interval_cases v <;> decide

theorem fixedLengthHex_format4 (v : Nat) (hv : v < 65536) (rest : List Nat) :
    FixedLengthHex 4 4 (toHexDigitChar (v / 4096 % 16) :: toHexDigitChar (v / 256 % 16) ::
      toHexDigitChar (v / 16 % 16) :: toHexDigitChar (v % 16) :: rest) = .ok (v, rest) := by
  have h3 : v / 4096 % 16 < 16 := Nat.mod_lt _ (by omega)
  have h2 : v / 256 % 16 < 16 := Nat.mod_lt _ (by omega)
  have h1 : v / 16 % 16 < 16 := Nat.mod_lt _ (by omega)
  have h0 : v % 16 < 16 := Nat.mod_lt _ (by omega)
  rw [FixedLengthHex, if_neg (by simp)]
  rw [hexUint]
  simp only [List.take_succ_cons, List.take_zero, List.drop_succ_cons, List.drop_zero,
    hexPrefixLen, toHexDigitChar_hex _ h3, toHexDigitChar_hex _ h2,
    toHexDigitChar_hex _ h1, toHexDigitChar_hex _ h0, if_true]
  norm_num
  simp only [List.foldl_cons, List.foldl_nil, hexDigitVal_toHexDigitChar _ h3,
    hexDigitVal_toHexDigitChar _ h2, hexDigitVal_toHexDigitChar _ h1,
    hexDigitVal_toHexDigitChar _ h0]
  omega

theorem fixedLengthHex_format2 (v : Nat) (hv : v < 256) (rest : List Nat) :
    FixedLengthHex 2 2 (toHexDigitChar (v / 16 % 16) :: toHexDigitChar (v % 16) :: rest) =
      .ok (v, rest) := by
  have h1 : v / 16 % 16 < 16 := Nat.mod_lt _ (by omega)
  have h0 : v % 16 < 16 := Nat.mod_lt _ (by omega)
  rw [FixedLengthHex, if_neg (by simp)]
  rw [hexUint]
  simp only [List.take_succ_cons, List.take_zero, List.drop_succ_cons, List.drop_zero,
    hexPrefixLen, toHexDigitChar_hex _ h1, toHexDigitChar_hex _ h0, if_true]
  norm_num
  simp only [List.foldl_cons, List.foldl_nil, hexDigitVal_toHexDigitChar _ h1,
    hexDigitVal_toHexDigitChar _ h0]
  omega

theorem fixedLengthHex_format1 (v : Nat) (hv : v < 16) (rest : List Nat) :
    FixedLengthHex 2 1 (toHexDigitChar v :: rest) = .ok (v, rest) := by
  rw [FixedLengthHex, if_neg (by simp)]
  rw [hexUint]
  simp only [List.take_succ_cons, List.take_zero, List.drop_succ_cons, List.drop_zero,
    hexPrefixLen, toHexDigitChar_hex _ hv, if_true]
  norm_num
  simp only [List.foldl_cons, List.foldl_nil, hexDigitVal_toHexDigitChar _ hv]

/-- C10: `parse_device` on the address text `"0000:00:1f.3"` yields
domain 0, bus 0, device `0x1f`, function 3, and for every well-formed
address, formatting its four integers as fixed-width lowercase hex
address text and reparsing reproduces the same four integers. -/
theorem pci_addr_round_trip :
    parse_device [48, 48, 48, 48, 58, 48, 48, 58, 49, 102, 46, 51] =
      some ⟨0, 0, 31, 3⟩ ∧
    ∀ a : PciAddr, a.wellFormed → parse_device (formatPciAddr a) = some a := by
  refine ⟨by decide, ?_⟩
  rintro ⟨d, b, dv, f⟩ ⟨hd, hb, hdv, hf⟩
  simp only [formatPciAddr]
  simp only [Nat.mod_eq_of_lt hf]
  simp [parse_device, fixedLengthHex_format4 d hd, fixedLengthHex_format2 b hb,
    fixedLengthHex_format2 dv hdv, fixedLengthHex_format1 f hf, expectChar]

/-- C10 witness: the round trip at the concrete address `0000:00:1f.3`. -/
theorem pci_addr_round_trip_witness :
    parse_device (formatPciAddr ⟨0, 0, 31, 3⟩) = some ⟨0, 0, 31, 3⟩ :=
  pci_addr_round_trip.2 ⟨0, 0, 31, 3⟩ ⟨by decide, by decide, by decide, by decide⟩
